import Mathlib

/-!
Shallow embedding of the Robo-HR command pipeline
(`src/backend/app/routes/command.js`) together with the domain stores it
touches: the attendance/leave model (`src/unnamed/part_005`, the attendance
model file), the employee model (`src/unnamed/part_006`) and the payroll
model (`src/backend/app/models/payroll.js`).

Modelling conventions:
* SQL tables become Lean lists held in a `Store`; `NOW()` is a natural-number
  clock `Store.now` that advances by one on every write, and `DATE(ts)` is
  `dateOf ts = ts / 86400` (seconds per day).
* SQL `=` on a nullable column follows three-valued logic: a comparison
  involving NULL never matches (`sqlEq`).
* `ORDER BY` is `List.insertionSort` with the corresponding comparison
  relation; `LIMIT n` is `List.take n`; a `JOIN employees` keeps only rows
  whose `employee_id` matches some employee's id.
* JavaScript `throw` / `try-catch` become an `Except String` channel threaded
  next to the store state (effects performed before a throw persist, as in
  the source where the database is not rolled back).
* JavaScript truthiness on optional strings (`undefined` and `""` are falsy)
  is `truthy`; on optional numbers (`undefined` and `0` are falsy) it is
  `truthyNat`.
* Each command handler bumps an instrumentation counter `Store.calls` on
  entry, so "no handler was invoked" is expressible as the counter staying
  unchanged.
-/

namespace RoboHR

/-- Seconds per day, used by the `DATE()` model. -/
def dayLength : Nat := 86400

/-- Model of SQL `DATE(timestamp)`: the day index of a timestamp. -/
def dateOf (t : Nat) : Nat := t / dayLength

/-- SQL equality on a nullable integer column: NULL never compares equal. -/
def sqlEq : Option Nat → Option Nat → Bool
  | some a, some b => a == b
  | _, _ => false

/-- JavaScript truthiness of an optional string (`undefined` and `""` are falsy). -/
def truthy : Option String → Bool
  | some s => !(s == "")
  | none => false

/-- JavaScript truthiness of an optional number (`undefined` and `0` are falsy). -/
def truthyNat : Option Nat → Bool
  | some n => !(n == 0)
  | none => false

/-- JavaScript `v || default` on an optional string field. -/
def falsyOr (v : Option String) (d : String) : String :=
  match v with
  | some s => if s == "" then d else s
  | none => d

/-- A row of the `employees` table (the columns the pipeline reads). -/
structure Employee where
  id : Nat
  name : String
  email : String
  role : String
  department : String
  deriving DecidableEq

/-- A row of the `attendance` table: `employee_id` is nullable in the schema,
`clock_in` is a timestamp, `clock_out` is NULL until the row is closed. -/
structure AttRecord where
  id : Nat
  employee_id : Option Nat
  clock_in : Nat
  clock_out : Option Nat
  deriving DecidableEq

/-- A row of the `leave_requests` table (the columns the pipeline reads). -/
structure LeaveRecord where
  id : Nat
  employee_id : Option Nat
  start_date : String
  end_date : String
  reason : String
  leave_type : String
  status : String
  created_at : Nat
  deriving DecidableEq

/-- A row of the `payrolls` table (the columns the ordering claim reads). -/
structure PayRecord where
  id : Nat
  employee_id : Option Nat
  month : Nat
  year : Nat
  deriving DecidableEq

/-- The database state visible to the pipeline, plus the write clock `now`,
the SERIAL counters, and the handler-invocation counter `calls`. -/
structure Store where
  employees : List Employee
  attendance : List AttRecord
  leaves : List LeaveRecord
  payrolls : List PayRecord
  nextAttId : Nat
  nextLeaveId : Nat
  now : Nat
  calls : Nat
  deriving DecidableEq

/-- Instrumentation: entering a command handler bumps the invocation counter. -/
def tick (s : Store) : Store := { s with calls := s.calls + 1 }

/-! ### Ordering relations used by the SQL `ORDER BY` clauses -/

/-- Ordering for `ORDER BY name` (ascending) on employees. -/
def nameLe (a b : Employee) : Prop := a.name ≤ b.name

instance : DecidableRel nameLe :=
  fun a b => inferInstanceAs (Decidable (a.name ≤ b.name))

instance : IsTotal Employee nameLe := ⟨fun a b => le_total a.name b.name⟩

instance : IsTrans Employee nameLe := ⟨fun _ _ _ h h' => le_trans h h'⟩

/-- Ordering for `ORDER BY clock_in DESC` on attendance rows. -/
def attDesc (a b : AttRecord) : Prop := b.clock_in ≤ a.clock_in

instance : DecidableRel attDesc :=
  fun a b => inferInstanceAs (Decidable (b.clock_in ≤ a.clock_in))

instance : IsTotal AttRecord attDesc := ⟨fun a b => le_total b.clock_in a.clock_in⟩

instance : IsTrans AttRecord attDesc := ⟨fun _ _ _ h h' => le_trans h' h⟩

/-- Ordering for `ORDER BY created_at DESC` on leave rows. -/
def leaveDesc (a b : LeaveRecord) : Prop := b.created_at ≤ a.created_at

instance : DecidableRel leaveDesc :=
  fun a b => inferInstanceAs (Decidable (b.created_at ≤ a.created_at))

instance : IsTotal LeaveRecord leaveDesc := ⟨fun a b => le_total b.created_at a.created_at⟩

instance : IsTrans LeaveRecord leaveDesc := ⟨fun _ _ _ h h' => le_trans h' h⟩

/-- Ordering for `ORDER BY year DESC, month DESC` on payroll rows
(lexicographic, most recent first). -/
def payDesc (a b : PayRecord) : Prop :=
  b.year < a.year ∨ (b.year = a.year ∧ b.month ≤ a.month)

instance : DecidableRel payDesc :=
  fun a b => inferInstanceAs (Decidable (b.year < a.year ∨ (b.year = a.year ∧ b.month ≤ a.month)))

instance : IsTotal PayRecord payDesc := by
  refine ⟨fun a b => ?_⟩
  rcases lt_trichotomy a.year b.year with h | h | h
  · exact Or.inr (Or.inl h)
  · rcases le_total b.month a.month with hm | hm
    · exact Or.inl (Or.inr ⟨h.symm, hm⟩)
    · exact Or.inr (Or.inr ⟨h, hm⟩)
  · exact Or.inl (Or.inl h)

instance : IsTrans PayRecord payDesc := by
  refine ⟨fun a b c hab hbc => ?_⟩
  rcases hab with h1 | ⟨h1, h1'⟩ <;> rcases hbc with h2 | ⟨h2, h2'⟩
  · exact Or.inl (lt_trans h2 h1)
  · exact Or.inl (h2 ▸ h1)
  · exact Or.inl (h1 ▸ h2)
  · exact Or.inr ⟨h2.trans h1, le_trans h2' h1'⟩

/-! ### Employee model (`src/unnamed/part_006`) -/

/-- Case-insensitive substring test, the meaning of SQL `col ILIKE '%pat%'`:
both sides are lowered character-wise and the pattern must occur inside the
column value. -/
def containsCI (hay pat : String) : Bool :=
  decide ((pat.data.map Char.toLower) <:+: (hay.data.map Char.toLower))

/-- Model of `Employee.search(query)`: `WHERE name ILIKE pattern OR email ILIKE
pattern OR role ILIKE pattern OR department ILIKE pattern ORDER BY name`,
where the pattern is the query wrapped in percent wildcards. -/
def matchesQuery (q : String) (e : Employee) : Bool :=
  containsCI e.name q || containsCI e.email q || containsCI e.role q || containsCI e.department q

def Employee.search (q : String) (s : Store) : List Employee :=
  List.insertionSort nameLe (s.employees.filter (matchesQuery q))

/-- Model of `Employee.getById(id)`: `SELECT * FROM employees WHERE id = $1`, first row. -/
def Employee.getById (id : Option Nat) (s : Store) : Option Employee :=
  (s.employees.filter (fun e => sqlEq (some e.id) id)).head?

/-- Model of `Employee.getAll(limit, offset)`: `ORDER BY created_at DESC LIMIT OFFSET`;
rows are held in insertion order with monotone `created_at`, so the
descending order is the reverse of table order. -/
def Employee.getAll (limit offset : Nat) (s : Store) : List Employee :=
  ((s.employees.reverse).drop offset).take limit

/-- Model of `Employee.getByDepartment(department)`: exact match, `ORDER BY name`. -/
def Employee.getByDepartment (d : String) (s : Store) : List Employee :=
  List.insertionSort nameLe (s.employees.filter (fun e => e.department == d))

/-! ### Attendance / leave model (`src/unnamed/part_005`) -/

/-- Model of `Attendance.getToday(employee_id)`: rows of the employee dated
today,
`ORDER BY clock_in DESC LIMIT 1`. -/
def Attendance.getToday (eid : Option Nat) (s : Store) : Option AttRecord :=
  (List.insertionSort attDesc
    (s.attendance.filter
      (fun r => sqlEq r.employee_id eid && (dateOf r.clock_in == dateOf s.now)))).head?

/-- Model of `Attendance.clockIn(employee_id)`: reject when the latest row of
today is still
open, else insert a fresh row with `clock_in = NOW()`. A throw is wrapped by
the function's own catch into `Error clocking in: ...`. -/
def Attendance.clockIn (eid : Option Nat) (s : Store) : Except String AttRecord × Store :=
  let row : AttRecord := { id := s.nextAttId, employee_id := eid, clock_in := s.now, clock_out := none }
  let inserted : Except String AttRecord × Store :=
    (.ok row,
     { s with attendance := s.attendance ++ [row], nextAttId := s.nextAttId + 1, now := s.now + 1 })
  match Attendance.getToday eid s with
  | some t =>
      if t.clock_out = none then
        (.error ("Error clocking in: " ++ "Employee is already clocked in"), s)
      else inserted
  | none => inserted

/-- Model of `Attendance.clockOut(record_id)`: `UPDATE attendance SET clock_out = NOW()
WHERE id = $1 AND clock_out IS NULL RETURNING *`; zero updated rows is an
error (thrown after the update, which then changed nothing). -/
def Attendance.clockOut (rid : Nat) (s : Store) : Except String AttRecord × Store :=
  let updatedRows :=
    (s.attendance.filter (fun r => r.id == rid && r.clock_out == none)).map
      (fun r => { r with clock_out := some s.now })
  let table :=
    s.attendance.map
      (fun r => if r.id == rid && r.clock_out == none then { r with clock_out := some s.now } else r)
  let s' := { s with attendance := table, now := s.now + 1 }
  match updatedRows with
  | [] => (.error ("Error clocking out: " ++ "Attendance record not found or already clocked out"), s')
  | r :: _ => (.ok r, s')

/-- Model of `Attendance.getAllForEmployee(employee_id, limit)`: join with employees,
`ORDER BY clock_in DESC LIMIT $2`. -/
def Attendance.getAllForEmployee (eid : Option Nat) (limit : Nat) (s : Store) : List AttRecord :=
  (List.insertionSort attDesc
    (s.attendance.filter
      (fun r => sqlEq r.employee_id eid &&
        s.employees.any (fun e => sqlEq (some e.id) r.employee_id)))).take limit

/-- Model of `Attendance.requestLeave(employee_id, start_date, end_date, reason,
leave_type)`: insert a `pending` row with `created_at = NOW()`. -/
def Attendance.requestLeave (eid : Option Nat) (sd ed reason lt : String) (s : Store) :
    Except String LeaveRecord × Store :=
  let row : LeaveRecord :=
    { id := s.nextLeaveId, employee_id := eid, start_date := sd, end_date := ed,
      reason := reason, leave_type := lt, status := "pending", created_at := s.now }
  (.ok row,
   { s with leaves := s.leaves ++ [row], nextLeaveId := s.nextLeaveId + 1, now := s.now + 1 })

/-- Model of `Attendance.getLeaves(employee_id)`: join with employees,
`ORDER BY created_at DESC`. -/
def Attendance.getLeaves (eid : Option Nat) (s : Store) : List LeaveRecord :=
  List.insertionSort leaveDesc
    (s.leaves.filter
      (fun r => sqlEq r.employee_id eid &&
        s.employees.any (fun e => sqlEq (some e.id) r.employee_id)))

/-! ### Payroll model (`src/backend/app/models/payroll.js`) -/

/-- Model of `Payroll.getForEmployee(employee_id, limit)`: join with employees,
`ORDER BY year DESC, month DESC LIMIT $2`. -/
def Payroll.getForEmployee (eid : Option Nat) (limit : Nat) (s : Store) : List PayRecord :=
  (List.insertionSort payDesc
    (s.payrolls.filter
      (fun r => sqlEq r.employee_id eid &&
        s.employees.any (fun e => sqlEq (some e.id) r.employee_id)))).take limit

/-! ### Command layer (`src/backend/app/routes/command.js`) -/

/-- The free-form parameter bag extracted by the interpreter; absent keys are
`none`. -/
structure Params where
  employee_name : Option String := none
  employee_id : Option Nat := none
  start_date : Option String := none
  end_date : Option String := none
  reason : Option String := none
  leave_type : Option String := none
  department : Option String := none
  search_term : Option String := none
  deriving DecidableEq

/-- The AI service's reply as consumed by `executeCommand`: an action name and
an optional parameter bag. -/
structure AiResult where
  action : String
  parameters : Option Params
  deriving DecidableEq

/-- The data payloads the handlers return. -/
inductive ResData where
  | attList (l : List AttRecord)
  | attRec (r : AttRecord)
  | leaveRec (r : LeaveRecord)
  | payList (l : List PayRecord)
  | empList (l : List Employee)
  | emp (e : Employee)
  deriving DecidableEq

/-- The heterogeneous result object `executeCommand` returns: success results
carry `action`/`data`/`message`, the unknown-action result carries
`action`/`message`/`parameters`, and the catch-all result carries
`error`/`details`. Absent JavaScript fields are `none`. -/
structure CmdResult where
  action : Option String := none
  data : Option ResData := none
  message : Option String := none
  parameters : Option Params := none
  error : Option String := none
  details : Option String := none
  deriving DecidableEq

/-- The V8 runtime message for destructuring `undefined`, raised by
`handleLeaveRequestCommand` when the intent has no parameter bag. -/
def destructureMsg : String :=
  "Cannot destructure property start_date of parameters as it is undefined."

/-- Model of `handleAttendanceCommand(parameters, employee_id)`: optional name
resolution (first search match wins; no match keeps the caller's id), then
the ten most recent attendance rows. -/
def handleAttendanceCommand (p : Option Params) (employee_id : Option Nat) (s : Store) :
    Except String CmdResult × Store :=
  let s := tick s
  let eid :=
    match p with
    | some ps =>
        if truthy ps.employee_name then
          match Employee.search (ps.employee_name.getD "") s with
          | e :: _ => some e.id
          | [] => employee_id
        else employee_id
    | none => employee_id
  let att := Attendance.getAllForEmployee eid 10 s
  (.ok { action := some "view_attendance", data := some (.attList att),
         message := some ("Retrieved " ++ toString att.length ++ " attendance records") }, s)

/-- Model of `handleClockInCommand(employee_id)`. -/
def handleClockInCommand (employee_id : Option Nat) (s : Store) :
    Except String CmdResult × Store :=
  let s := tick s
  match Attendance.clockIn employee_id s with
  | (.ok r, s') =>
      (.ok { action := some "clock_in", data := some (.attRec r),
             message := some "Successfully clocked in" }, s')
  | (.error e, s') => (.error ("Failed to clock in: " ++ e), s')

/-- Model of `handleClockOutCommand(employee_id)`: requires an open row today, else
throws `No active clock-in record found`. -/
def handleClockOutCommand (employee_id : Option Nat) (s : Store) :
    Except String CmdResult × Store :=
  let s := tick s
  match Attendance.getToday employee_id s with
  | none => (.error ("Failed to clock out: " ++ "No active clock-in record found"), s)
  | some t =>
      if t.clock_out.isSome then
        (.error ("Failed to clock out: " ++ "No active clock-in record found"), s)
      else
        match Attendance.clockOut t.id s with
        | (.ok r, s') =>
            (.ok { action := some "clock_out", data := some (.attRec r),
                   message := some "Successfully clocked out" }, s')
        | (.error e, s') => (.error ("Failed to clock out: " ++ e), s')

/-- Model of `handleLeaveRequestCommand(parameters, employee_id)`: destructures the
parameter bag, requires truthy start and end dates, defaults reason and
leave type. -/
def handleLeaveRequestCommand (p : Option Params) (employee_id : Option Nat) (s : Store) :
    Except String CmdResult × Store :=
  let s := tick s
  match p with
  | none => (.error ("Failed to request leave: " ++ destructureMsg), s)
  | some ps =>
      if !truthy ps.start_date || !truthy ps.end_date then
        (.error ("Failed to request leave: " ++ "Start date and end date are required for leave request"), s)
      else
        match Attendance.requestLeave employee_id (ps.start_date.getD "") (ps.end_date.getD "")
            (falsyOr ps.reason "Leave request via voice command")
            (falsyOr ps.leave_type "vacation") s with
        | (.ok r, s') =>
            (.ok { action := some "request_leave", data := some (.leaveRec r),
                   message := some "Leave request submitted successfully" }, s')
        | (.error e, s') => (.error ("Failed to request leave: " ++ e), s')

/-- Model of `handlePayrollCommand(parameters, employee_id)`: ignores the parameter bag
and fetches the caller's six most recent payroll rows. -/
def handlePayrollCommand (_p : Option Params) (employee_id : Option Nat) (s : Store) :
    Except String CmdResult × Store :=
  let s := tick s
  let payrolls := Payroll.getForEmployee employee_id 6 s
  (.ok { action := some "view_payroll", data := some (.payList payrolls),
         message := some ("Retrieved " ++ toString payrolls.length ++ " payroll records") }, s)

/-- Model of `handleEmployeeCommand(parameters)`: department filter, else search, else
the first twenty employees. -/
def handleEmployeeCommand (p : Option Params) (s : Store) :
    Except String CmdResult × Store :=
  let s := tick s
  let emps :=
    match p with
    | none => Employee.getAll 20 0 s
    | some ps =>
        if truthy ps.department then Employee.getByDepartment (ps.department.getD "") s
        else if truthy ps.search_term then Employee.search (ps.search_term.getD "") s
        else Employee.getAll 20 0 s
  (.ok { action := some "view_employees", data := some (.empList emps),
         message := some ("Retrieved " ++ toString emps.length ++ " employees") }, s)

/-- Model of `handleEmployeeInfoCommand(parameters)`: lookup by id when the id is
truthy, else first search match by name; no employee found throws
`Employee not found`. -/
def handleEmployeeInfoCommand (p : Option Params) (s : Store) :
    Except String CmdResult × Store :=
  let s := tick s
  let employee : Option Employee :=
    match p with
    | none => none
    | some ps =>
        if truthyNat ps.employee_id then Employee.getById ps.employee_id s
        else if truthy ps.employee_name then (Employee.search (ps.employee_name.getD "") s).head?
        else none
  match employee with
  | none => (.error ("Failed to retrieve employee info: " ++ "Employee not found"), s)
  | some e =>
      (.ok { action := some "get_employee_info", data := some (.emp e),
             message := some ("Retrieved information for " ++ e.name) }, s)

/-- The action names wired to handlers in `executeCommand`'s switch. -/
def registeredActions : List String :=
  ["view_attendance", "clock_in", "clock_out", "request_leave",
   "view_payroll", "view_employees", "get_employee_info"]

/-- The body of `executeCommand`'s try block: the switch over the action
name; the default branch returns the not-implemented result without calling
any handler. -/
def executeCommandE (ai : AiResult) (employee_id : Option Nat) (s : Store) :
    Except String CmdResult × Store :=
  if ai.action = "view_attendance" then handleAttendanceCommand ai.parameters employee_id s
  else if ai.action = "clock_in" then handleClockInCommand employee_id s
  else if ai.action = "clock_out" then handleClockOutCommand employee_id s
  else if ai.action = "request_leave" then handleLeaveRequestCommand ai.parameters employee_id s
  else if ai.action = "view_payroll" then handlePayrollCommand ai.parameters employee_id s
  else if ai.action = "view_employees" then handleEmployeeCommand ai.parameters s
  else if ai.action = "get_employee_info" then handleEmployeeInfoCommand ai.parameters s
  else
    (.ok { action := some ai.action,
           message := some "Command recognized but not implemented yet",
           parameters := ai.parameters }, s)

/-- Model of `executeCommand(aiResult, employee_id)`: the switch wrapped in the
catch-all that converts any thrown error into a plain result object. -/
def executeCommand (ai : AiResult) (employee_id : Option Nat) (s : Store) : CmdResult × Store :=
  match executeCommandE ai employee_id s with
  | (.ok r, s') => (r, s')
  | (.error e, s') =>
      ({ error := some "Failed to execute command", details := some e }, s')

/-! ### Command gateway (`router.post('/text')`) -/

/-- The request body of `POST /api/command/text`. -/
structure TextBody where
  text : Option String := none
  lang : String := "en"
  employee_id : Option Nat := none
  deriving DecidableEq

/-- The HTTP envelope the gateway sends back (the fields the claims read). -/
structure HttpResponse where
  status : Nat
  success : Bool
  error : Option String := none
  execution_result : Option CmdResult := none
  deriving DecidableEq

/-- The `/text` route: 400 on missing text; the outbound interpreter call is
an `Except` argument (ok payload or the surfaced axios error string); an
interpreter failure lands in the route's catch and yields a 500 envelope;
otherwise the execution result is wrapped in a 200 `success:true` envelope. -/
def textEndpoint (body : TextBody) (aiCall : Except String AiResult) (s : Store) :
    HttpResponse × Store :=
  if !truthy body.text then
    ({ status := 400, success := false, error := some "Text command is required" }, s)
  else
    match aiCall with
    | .error e => ({ status := 500, success := false, error := some e }, s)
    | .ok ai =>
        let rs := executeCommand ai body.employee_id s
        ({ status := 200, success := true, execution_result := some rs.1 }, rs.2)

/-! ### Concrete stores and inputs used by witnesses and counterexamples -/

/-- An empty database with the clock at 0. -/
def baseStore : Store :=
  { employees := [], attendance := [], leaves := [], payrolls := [],
    nextAttId := 1, nextLeaveId := 1, now := 0, calls := 0 }

/-- A single employee, for the name-resolution scenarios. -/
def aliceRow : Employee :=
  { id := 1, name := "Alice", email := "alice@example.com",
    role := "Engineer", department := "Engineering" }

/-- A store holding just Alice. -/
def nameStore : Store := { baseStore with employees := [aliceRow] }

/-- A store where employee 7 has an open attendance row from earlier today. -/
def openStore : Store :=
  { baseStore with
      attendance := [{ id := 1, employee_id := some 7, clock_in := 0, clock_out := none }],
      nextAttId := 2, now := 5 }

/-- A store where employee 7's only attendance row is already closed. -/
def closedStore : Store :=
  { baseStore with
      attendance := [{ id := 1, employee_id := some 7, clock_in := 0, clock_out := some 3 }],
      nextAttId := 2, now := 5 }

/-- A store holding employee 7, for the leave round-trip scenario. -/
def leaveStore : Store :=
  { baseStore with
      employees := [{ id := 7, name := "Grace", email := "grace@example.com",
                      role := "Analyst", department := "Finance" }] }

/-! ### Helper lemmas -/

/-- Transparency of `tick`: it only touches the invocation counter, so every
store query reads through it unchanged. -/
theorem getToday_tick (eid : Option Nat) (s : Store) :
    Attendance.getToday eid (tick s) = Attendance.getToday eid s := rfl

/-- Transparency of `tick` for the employee search. -/
theorem search_tick (q : String) (s : Store) :
    Employee.search q (tick s) = Employee.search q s := rfl

/-- Transparency of `tick` for the attendance listing. -/
theorem getAllForEmployee_tick (eid : Option Nat) (n : Nat) (s : Store) :
    Attendance.getAllForEmployee eid n (tick s) = Attendance.getAllForEmployee eid n s := rfl

/-- Transparency of `tick` for the employee lookup by id. -/
theorem getById_tick (id : Option Nat) (s : Store) :
    Employee.getById id (tick s) = Employee.getById id s := rfl

/-- The head of a `clock_in`-descending sort is the row with the strictly
greatest `clock_in`. -/
theorem head_insertionSort_attDesc (l : List AttRecord) (x : AttRecord)
    (hx : x ∈ l) (hmax : ∀ y ∈ l, y ≠ x → y.clock_in < x.clock_in) :
    (List.insertionSort attDesc l).head? = some x := by
  have hperm := List.perm_insertionSort attDesc l
  have hsorted := List.sorted_insertionSort attDesc l
  have hxl : x ∈ List.insertionSort attDesc l := hperm.mem_iff.mpr hx
  cases hsl : List.insertionSort attDesc l with
  | nil => rw [hsl] at hxl; simp at hxl
  | cons h t =>
    rw [hsl] at hxl hsorted hperm
    have hhl : h ∈ l := hperm.mem_iff.mp (List.mem_cons_self h t)
    by_cases hhx : h = x
    · simp [hhx]
    · exfalso
      have h1 : h.clock_in < x.clock_in := hmax h hhl hhx
      rcases List.mem_cons.mp hxl with heq | hxt
      · exact hhx heq.symm
      · have h2 := List.rel_of_sorted_cons hsorted x hxt
        unfold attDesc at h2
        omega

/-- Under unique row ids, the rows matched by `clockOut`'s `WHERE` clause for
an open row `t` are exactly `[t]`. -/
theorem filter_open_eq_single (l : List AttRecord) (t : AttRecord)
    (hnd : (l.map (fun r => r.id)).Nodup)
    (ht : t ∈ l) (hopen : t.clock_out = none) :
    l.filter (fun r => r.id == t.id && r.clock_out == none) = [t] := by
  induction l with
  | nil => simp at ht
  | cons a l ih =>
    simp only [List.map_cons, List.nodup_cons, List.mem_map] at hnd
    rcases List.mem_cons.mp ht with rfl | htl
    · have hcond : (t.id == t.id && t.clock_out == none) = true := by
        simp [hopen]
      have hrest : l.filter (fun r => r.id == t.id && r.clock_out == none) = [] := by
        refine List.filter_eq_nil_iff.mpr (fun r hr => ?_)
        have : r.id ≠ t.id := fun he => hnd.1 ⟨r, hr, he⟩
        simp [this]
      simp [List.filter_cons, hcond, hrest, hopen]
    · have haid : a.id ≠ t.id := by
        intro he
        exact hnd.1 ⟨t, htl, he.symm⟩
      have hcond : (a.id == t.id && a.clock_out == none) = false := by
        simp [haid]
      simp only [List.filter_cons, hcond, Bool.false_eq_true, if_false]
      exact ih hnd.2 htl

/-- Appending a row that passes the filter and re-sorting is, up to
permutation, consing the row onto the sorted old selection. -/
theorem perm_sort_filter_append (p : LeaveRecord → Bool) (l : List LeaveRecord)
    (row : LeaveRecord) (hp : p row = true) :
    List.Perm (List.insertionSort leaveDesc ((l ++ [row]).filter p))
      (row :: List.insertionSort leaveDesc (l.filter p)) := by
  have hfilt : (l ++ [row]).filter p = l.filter p ++ [row] := by
    rw [List.filter_append]
    simp only [List.filter_cons, List.filter_nil, hp, if_true]
  rw [hfilt]
  exact (List.perm_insertionSort leaveDesc _).trans
    ((List.perm_append_singleton _ _).trans
      (List.Perm.cons _ (List.perm_insertionSort leaveDesc _).symm))

/-- Membership from a successful `head?`. -/
theorem mem_of_head?_eq {α : Type} {l : List α} {a : α} (h : l.head? = some a) : a ∈ l := by
  cases l with
  | nil => simp at h
  | cons b t =>
    simp only [List.head?_cons, Option.some.injEq] at h
    exact h ▸ List.mem_cons_self b t

/-! ### Claims -/

/-- Claim C1: for every registered action name, if `executeCommand` is given
an intent with that action and the dispatch through the matching handler
succeeds (all required parameters present and all store calls succeed, i.e.
the try block returns normally), then the returned result's action field
equals the submitted action name and the result is a success: it carries
data and a message and no error fields. -/
theorem registered_action_success (ai : AiResult) (eid : Option Nat) (s s' : Store) (r : CmdResult)
    (hreg : ai.action ∈ registeredActions)
    (hok : executeCommandE ai eid s = (.ok r, s')) :
    executeCommand ai eid s = (r, s')
    ∧ r.action = some ai.action ∧ r.data.isSome ∧ r.message.isSome
    ∧ r.error = none ∧ r.details = none := by
  refine ⟨by simp [executeCommand, hok], ?_⟩
  obtain ⟨a, p⟩ := ai
  simp only [registeredActions, List.mem_cons, List.not_mem_nil, or_false] at hreg
  rcases hreg with rfl | rfl | rfl | rfl | rfl | rfl | rfl <;>
    simp only [executeCommandE, reduceIte, handleAttendanceCommand, handleClockInCommand,
      handleClockOutCommand, handleLeaveRequestCommand, handlePayrollCommand,
      handleEmployeeCommand, handleEmployeeInfoCommand] at hok <;>
    (repeat' split at hok) <;>
    rw [Prod.mk.injEq] at hok <;>
    rcases hok with ⟨h1, h2⟩ <;>
    first
      | exact Except.noConfusion h1
      | (rw [Except.ok.injEq] at h1; subst h1; simp_all)

/-- Witness for C1: the registered action `view_employees` on the empty store. -/
theorem registered_action_success_witness :
    executeCommand ⟨"view_employees", none⟩ none baseStore =
      ({ action := some "view_employees", data := some (.empList []),
         message := some "Retrieved 0 employees" }, tick baseStore)
    ∧ (some "view_employees" : Option String) = some "view_employees"
    ∧ (some (ResData.empList []) : Option ResData).isSome
    ∧ (some "Retrieved 0 employees" : Option String).isSome
    ∧ (none : Option String) = none ∧ (none : Option String) = none := by
  have h := registered_action_success ⟨"view_employees", none⟩ none baseStore (tick baseStore)
    { action := some "view_employees", data := some (.empList []),
      message := some "Retrieved 0 employees" } (by decide) rfl
  exact h

/-- Claim C2: for every action name not in the registered set,
`executeCommand` returns the not-implemented result (whose message contains
"recognized but not implemented"), leaves the store untouched and invokes no
handler: the handler-invocation counter stays at its old value. -/
theorem unknown_action_not_implemented (ai : AiResult) (eid : Option Nat) (s : Store)
    (h : ai.action ∉ registeredActions) :
    executeCommand ai eid s =
      ({ action := some ai.action,
         message := some "Command recognized but not implemented yet",
         parameters := ai.parameters }, s)
    ∧ (executeCommand ai eid s).2.calls = s.calls
    ∧ containsCI "Command recognized but not implemented yet" "recognized but not implemented" = true := by
  simp only [registeredActions, List.mem_cons, List.not_mem_nil, or_false] at h
  push_neg at h
  obtain ⟨h1, h2, h3, h4, h5, h6, h7⟩ := h
  refine ⟨?_, ?_, by decide⟩ <;>
    simp [executeCommand, executeCommandE, h1, h2, h3, h4, h5, h6, h7]

/-- Witness for C2 at the concrete action name "dance". -/
theorem unknown_action_not_implemented_witness :
    executeCommand ⟨"dance", none⟩ (some 7)
        { employees := [], attendance := [], leaves := [], payrolls := [],
          nextAttId := 1, nextLeaveId := 1, now := 0, calls := 0 } =
      ({ action := some "dance",
         message := some "Command recognized but not implemented yet",
         parameters := none },
       { employees := [], attendance := [], leaves := [], payrolls := [],
         nextAttId := 1, nextLeaveId := 1, now := 0, calls := 0 }) :=
  (unknown_action_not_implemented ⟨"dance", none⟩ (some 7)
    { employees := [], attendance := [], leaves := [], payrolls := [],
      nextAttId := 1, nextLeaveId := 1, now := 0, calls := 0 } (by decide)).1

/-- Claim C3: `executeCommand` is total over its error channel: whatever the
intent, the parameter bag and the store, the outcome is a returned value —
either the try block's result, or, when the try block throws, the catch
block's error result; nothing escapes as an exception. -/
theorem executeCommand_total (ai : AiResult) (eid : Option Nat) (s : Store) :
    (∃ r s', executeCommandE ai eid s = (.ok r, s') ∧ executeCommand ai eid s = (r, s')) ∨
    (∃ e s', executeCommandE ai eid s = (.error e, s') ∧
       executeCommand ai eid s =
         ({ error := some "Failed to execute command", details := some e }, s')) := by
  cases hE : executeCommandE ai eid s with
  | mk res st =>
    cases res with
    | ok r => exact Or.inl ⟨r, st, rfl, by simp [executeCommand, hE]⟩
    | error e => exact Or.inr ⟨e, st, rfl, by simp [executeCommand, hE]⟩

/-- Claim C7: for a caller with employee id 7, the payroll handler ignores
the intent's parameter bag entirely (any two bags give the same outcome),
queries the payroll store with employee id 7 and limit 6, and the returned
list has at most 6 records and is sorted most recent first (descending by
year, then by month). -/
theorem payroll_caller_seven (p p' : Option Params) (s : Store) :
    handlePayrollCommand p (some 7) s = handlePayrollCommand p' (some 7) s
    ∧ (handlePayrollCommand p (some 7) s).1 =
        .ok { action := some "view_payroll",
              data := some (.payList (Payroll.getForEmployee (some 7) 6 s)),
              message := some ("Retrieved " ++
                toString (Payroll.getForEmployee (some 7) 6 s).length ++ " payroll records") }
    ∧ (Payroll.getForEmployee (some 7) 6 s).length ≤ 6
    ∧ List.Sorted payDesc (Payroll.getForEmployee (some 7) 6 s) := by
  refine ⟨rfl, rfl, ?_, ?_⟩
  · exact List.length_take_le 6 _
  · exact (List.sorted_insertionSort payDesc _).sublist (List.take_sublist 6 _)

/-- Claim C9: a set `clock_out` field is never changed again — `clockOut`
leaves every already-closed row in place (position-wise), and a call naming
an already-clocked-out or nonexistent record id fails with an error while
leaving the whole attendance table unchanged. -/
theorem clockOut_immutability (rid : Nat) (s : Store) :
    (∀ (i : Nat) (r : AttRecord), s.attendance[i]? = some r → r.clock_out ≠ none →
        (Attendance.clockOut rid s).2.attendance[i]? = some r)
    ∧ ((∀ r ∈ s.attendance, ¬(r.id = rid ∧ r.clock_out = none)) →
        (Attendance.clockOut rid s).1 =
          .error ("Error clocking out: " ++ "Attendance record not found or already clocked out")
        ∧ (Attendance.clockOut rid s).2.attendance = s.attendance) := by
  have hstate : (Attendance.clockOut rid s).2.attendance =
      s.attendance.map (fun r =>
        if r.id == rid && r.clock_out == none then { r with clock_out := some s.now } else r) := by
    simp only [Attendance.clockOut]
    split <;> rfl
  constructor
  · intro i r hi hr
    rw [hstate, List.getElem?_map, hi]
    have hfix : (if r.id == rid && r.clock_out == none
        then { r with clock_out := some s.now } else r) = r := by
      rcases hc : r.clock_out with _ | v
      · exact absurd hc hr
      · simp [hc]
    exact congrArg some hfix
  · intro h
    have hfilter : s.attendance.filter (fun r => r.id == rid && r.clock_out == none) = [] := by
      refine List.filter_eq_nil_iff.mpr (fun r hr => ?_)
      have hrr := h r hr
      simp only [Bool.and_eq_true, beq_iff_eq, not_and]
      intro h1 h2
      exact hrr ⟨h1, h2⟩
    constructor
    · simp only [Attendance.clockOut, hfilter, List.map_nil]
    · rw [hstate]
      have hid : s.attendance.map (fun r =>
          if r.id == rid && r.clock_out == none then { r with clock_out := some s.now } else r) =
          s.attendance.map id := by
        refine List.map_congr_left (fun r hr => ?_)
        have hrr := h r hr
        have hcond : (r.id == rid && r.clock_out == none) = false := by
          by_contra hc
          rw [Bool.not_eq_false, Bool.and_eq_true, beq_iff_eq, beq_iff_eq] at hc
          exact hrr hc
        simp [hcond]
      rw [hid, List.map_id]

/-- Witness for C9: record 1 of `closedStore` is already clocked out, so a
second `clockOut` on it fails and changes nothing. -/
theorem clockOut_immutability_witness :
    (Attendance.clockOut 1 closedStore).2.attendance[0]? =
        some { id := 1, employee_id := some 7, clock_in := 0, clock_out := some 3 }
    ∧ (Attendance.clockOut 1 closedStore).1 =
        .error ("Error clocking out: " ++ "Attendance record not found or already clocked out")
    ∧ (Attendance.clockOut 1 closedStore).2.attendance = closedStore.attendance := by
  have h := clockOut_immutability 1 closedStore
  exact ⟨h.1 0 { id := 1, employee_id := some 7, clock_in := 0, clock_out := some 3 } rfl
          (by decide),
        (h.2 (by decide)).1, (h.2 (by decide)).2⟩

/-- Claim C4: starting from a state where the employee is not currently
clocked in today, clocking in twice on the same day (no intervening clock
out) succeeds the first time — inserting a row with `clock_in` set and
`clock_out` empty — and is rejected the second time with the
already-clocked-in message, inserting no record. -/
theorem clock_in_twice_same_day (eid : Nat) (s : Store)
    (hpast : ∀ r ∈ s.attendance, r.clock_in < s.now)
    (hday : dateOf (s.now + 1) = dateOf s.now)
    (hfree : ∀ t, Attendance.getToday (some eid) s = some t → t.clock_out ≠ none) :
    ∃ row,
      (handleClockInCommand (some eid) s).1 =
        .ok { action := some "clock_in", data := some (.attRec row),
              message := some "Successfully clocked in" }
      ∧ row.employee_id = some eid ∧ row.clock_out = none
      ∧ (handleClockInCommand (some eid) s).2.attendance = s.attendance ++ [row]
      ∧ (handleClockInCommand (some eid) ((handleClockInCommand (some eid) s).2)).1 =
          .error ("Failed to clock in: " ++ ("Error clocking in: " ++ "Employee is already clocked in"))
      ∧ (handleClockInCommand (some eid) ((handleClockInCommand (some eid) s).2)).2.attendance =
          s.attendance ++ [row]
      ∧ containsCI ("Failed to clock in: " ++ ("Error clocking in: " ++ "Employee is already clocked in"))
          "already clocked in" = true := by
  refine ⟨{ id := s.nextAttId, employee_id := some eid, clock_in := s.now, clock_out := none },
    ?_⟩
  have hclock1 : Attendance.clockIn (some eid) (tick s) =
      (.ok { id := s.nextAttId, employee_id := some eid, clock_in := s.now, clock_out := none },
       { tick s with
           attendance := s.attendance ++
             [{ id := s.nextAttId, employee_id := some eid, clock_in := s.now, clock_out := none }],
           nextAttId := s.nextAttId + 1, now := s.now + 1 }) := by
    cases hg : Attendance.getToday (some eid) s with
    | none =>
      simp only [Attendance.clockIn, getToday_tick, hg]
      rfl
    | some t =>
      have hto := hfree t hg
      simp only [Attendance.clockIn, getToday_tick, hg, if_neg hto]
      rfl
  have hfirst : handleClockInCommand (some eid) s =
      (.ok { action := some "clock_in",
             data := some (.attRec { id := s.nextAttId, employee_id := some eid,
                                     clock_in := s.now, clock_out := none }),
             message := some "Successfully clocked in" },
       { tick s with
           attendance := s.attendance ++
             [{ id := s.nextAttId, employee_id := some eid, clock_in := s.now, clock_out := none }],
           nextAttId := s.nextAttId + 1, now := s.now + 1 }) := by
    simp only [handleClockInCommand, hclock1]
  have hg2 : Attendance.getToday (some eid)
      { tick s with
          attendance := s.attendance ++
            [{ id := s.nextAttId, employee_id := some eid, clock_in := s.now, clock_out := none }],
          nextAttId := s.nextAttId + 1, now := s.now + 1 } =
      some { id := s.nextAttId, employee_id := some eid, clock_in := s.now, clock_out := none } := by
    apply head_insertionSort_attDesc
    · refine List.mem_filter.mpr ⟨List.mem_append_right _ (List.mem_singleton.mpr rfl), ?_⟩
      simp [sqlEq, hday]
    · intro y hy hne
      have hyl := (List.mem_filter.mp hy).1
      rcases List.mem_append.mp hyl with hyo | hyr
      · exact hpast y hyo
      · rw [List.mem_singleton] at hyr
        exact absurd hyr hne
  have hci2 : Attendance.clockIn (some eid)
      (tick { tick s with
          attendance := s.attendance ++
            [{ id := s.nextAttId, employee_id := some eid, clock_in := s.now, clock_out := none }],
          nextAttId := s.nextAttId + 1, now := s.now + 1 }) =
      (.error ("Error clocking in: " ++ "Employee is already clocked in"),
       tick { tick s with
          attendance := s.attendance ++
            [{ id := s.nextAttId, employee_id := some eid, clock_in := s.now, clock_out := none }],
          nextAttId := s.nextAttId + 1, now := s.now + 1 }) := by
    simp only [Attendance.clockIn, getToday_tick, hg2]
    rfl
  have hsecond : handleClockInCommand (some eid)
      { tick s with
          attendance := s.attendance ++
            [{ id := s.nextAttId, employee_id := some eid, clock_in := s.now, clock_out := none }],
          nextAttId := s.nextAttId + 1, now := s.now + 1 } =
      (.error ("Failed to clock in: " ++ ("Error clocking in: " ++ "Employee is already clocked in")),
       tick { tick s with
          attendance := s.attendance ++
            [{ id := s.nextAttId, employee_id := some eid, clock_in := s.now, clock_out := none }],
          nextAttId := s.nextAttId + 1, now := s.now + 1 }) := by
    simp only [handleClockInCommand, hci2]
  rw [hfirst]
  refine ⟨rfl, rfl, rfl, rfl, ?_, ?_, by decide⟩
  · rw [hsecond]
  · rw [hsecond]
    rfl

/-- Witness for C4: employee 7 clocks in twice on day 0 over the empty store. -/
theorem clock_in_twice_same_day_witness :
    ∃ row,
      (handleClockInCommand (some 7) baseStore).1 =
        .ok { action := some "clock_in", data := some (.attRec row),
              message := some "Successfully clocked in" }
      ∧ row.employee_id = some 7 ∧ row.clock_out = none
      ∧ (handleClockInCommand (some 7) baseStore).2.attendance = baseStore.attendance ++ [row]
      ∧ (handleClockInCommand (some 7) ((handleClockInCommand (some 7) baseStore).2)).1 =
          .error ("Failed to clock in: " ++ ("Error clocking in: " ++ "Employee is already clocked in"))
      ∧ (handleClockInCommand (some 7) ((handleClockInCommand (some 7) baseStore).2)).2.attendance =
          baseStore.attendance ++ [row]
      ∧ containsCI ("Failed to clock in: " ++ ("Error clocking in: " ++ "Employee is already clocked in"))
          "already clocked in" = true :=
  clock_in_twice_same_day 7 baseStore (by simp [baseStore]) (by decide)
    (fun t h => by simp [Attendance.getToday, baseStore] at h)

/-- Claim C10: the clock-out command fails with the no-active-record message
exactly when the employee has no attendance row today or today's most recent
row is already closed; when today's most recent row is still open the
command succeeds and closes that row. -/
theorem clock_out_exact (eid : Nat) (s : Store)
    (hids : (s.attendance.map (fun r => r.id)).Nodup) :
    ((Attendance.getToday (some eid) s = none
        ∨ ∃ t, Attendance.getToday (some eid) s = some t ∧ t.clock_out ≠ none)
      ↔ (handleClockOutCommand (some eid) s).1 =
          .error ("Failed to clock out: " ++ "No active clock-in record found"))
    ∧ (∀ t, Attendance.getToday (some eid) s = some t → t.clock_out = none →
        (handleClockOutCommand (some eid) s).1 =
          .ok { action := some "clock_out",
                data := some (.attRec { t with clock_out := some s.now }),
                message := some "Successfully clocked out" }
        ∧ { t with clock_out := some s.now } ∈ (handleClockOutCommand (some eid) s).2.attendance) := by
  have hmem : ∀ t, Attendance.getToday (some eid) s = some t → t ∈ s.attendance := by
    intro t hg
    unfold Attendance.getToday at hg
    have ht := mem_of_head?_eq hg
    have ht2 := (List.perm_insertionSort attDesc _).mem_iff.mp ht
    exact (List.mem_filter.mp ht2).1
  have hco : ∀ (s₀ : Store) t, (s₀.attendance.map (fun r => r.id)).Nodup →
      t ∈ s₀.attendance → t.clock_out = none →
      Attendance.clockOut t.id s₀ =
        (.ok { t with clock_out := some s₀.now },
         { s₀ with
             attendance := s₀.attendance.map (fun r =>
               if r.id == t.id && r.clock_out == none
               then { r with clock_out := some s₀.now } else r),
             now := s₀.now + 1 }) := by
    intro s₀ t hnd ht hopen
    simp only [Attendance.clockOut, filter_open_eq_single s₀.attendance t hnd ht hopen,
      List.map_cons, List.map_nil]
  have hpart2 : ∀ t, Attendance.getToday (some eid) s = some t → t.clock_out = none →
      (handleClockOutCommand (some eid) s).1 =
        .ok { action := some "clock_out",
              data := some (.attRec { t with clock_out := some s.now }),
              message := some "Successfully clocked out" }
      ∧ { t with clock_out := some s.now } ∈ (handleClockOutCommand (some eid) s).2.attendance := by
    intro t hg hopen
    have ht := hmem t hg
    have hstep := hco (tick s) t hids ht hopen
    have hrun : handleClockOutCommand (some eid) s =
        (.ok { action := some "clock_out",
               data := some (.attRec { t with clock_out := some s.now }),
               message := some "Successfully clocked out" },
         { tick s with
             attendance := s.attendance.map (fun r =>
               if r.id == t.id && r.clock_out == none
               then { r with clock_out := some s.now } else r),
             now := s.now + 1 }) := by
      simp only [handleClockOutCommand, getToday_tick, hg, hopen, Option.isSome_none,
        Bool.false_eq_true, if_false, hstep]
      rfl
    rw [hrun]
    refine ⟨rfl, ?_⟩
    have himg : (fun r => if r.id == t.id && r.clock_out == none
        then { r with clock_out := some s.now } else r) t = { t with clock_out := some s.now } := by
      simp [hopen]
    exact himg ▸ List.mem_map_of_mem _ ht
  refine ⟨⟨?_, ?_⟩, hpart2⟩
  · rintro (hg | ⟨t, hg, ht⟩)
    · simp only [handleClockOutCommand, getToday_tick, hg]
    · have hs : t.clock_out.isSome = true := by
        rcases hc : t.clock_out with _ | v
        · exact absurd hc ht
        · rfl
      simp only [handleClockOutCommand, getToday_tick, hg, hs, if_true]
  · intro herr
    rcases hg : Attendance.getToday (some eid) s with _ | t
    · exact Or.inl rfl
    · rcases hoc : t.clock_out with _ | v
      · exfalso
        have hok := (hpart2 t hg hoc).1
        rw [hok] at herr
        exact Except.noConfusion herr
      · exact Or.inr ⟨t, rfl, by simp [hoc]⟩

/-- Witness for C10: employee 7 has an open row today in `openStore`; the
clock-out command closes exactly that row. -/
theorem clock_out_exact_witness :
    (handleClockOutCommand (some 7) openStore).1 =
      .ok { action := some "clock_out",
            data := some (.attRec { id := 1, employee_id := some 7, clock_in := 0,
                                    clock_out := some 5 }),
            message := some "Successfully clocked out" }
    ∧ ({ id := 1, employee_id := some 7, clock_in := 0, clock_out := some 5 } : AttRecord) ∈
        (handleClockOutCommand (some 7) openStore).2.attendance :=
  (clock_out_exact 7 openStore (by decide)).2
    { id := 1, employee_id := some 7, clock_in := 0, clock_out := none } rfl rfl

/-- Claim C6: submitting a leave request with both dates present inserts
exactly one new record — up to the descending `created_at` ordering of the
lookup, the post-state leave listing is the new row plus the old listing —
and the new row carries the submitted dates and status `pending`. -/
theorem leave_request_roundtrip (eid : Nat) (ps : Params) (sd ed : String) (s : Store)
    (hsd : ps.start_date = some sd) (hed : ps.end_date = some ed)
    (hsd' : sd ≠ "") (hed' : ed ≠ "")
    (hemp : s.employees.any (fun e => e.id == eid) = true) :
    ∃ row,
      (handleLeaveRequestCommand (some ps) (some eid) s).1 =
        .ok { action := some "request_leave", data := some (.leaveRec row),
              message := some "Leave request submitted successfully" }
      ∧ row.start_date = sd ∧ row.end_date = ed ∧ row.status = "pending"
      ∧ List.Perm
          (Attendance.getLeaves (some eid) (handleLeaveRequestCommand (some ps) (some eid) s).2)
          (row :: Attendance.getLeaves (some eid) s) := by
  refine ⟨{ id := s.nextLeaveId, employee_id := some eid, start_date := sd, end_date := ed,
            reason := falsyOr ps.reason "Leave request via voice command",
            leave_type := falsyOr ps.leave_type "vacation",
            status := "pending", created_at := s.now }, ?_⟩
  have htr1 : truthy (some sd) = true := by simp [truthy, hsd']
  have htr2 : truthy (some ed) = true := by simp [truthy, hed']
  have hrun : handleLeaveRequestCommand (some ps) (some eid) s =
      (.ok { action := some "request_leave",
             data := some (.leaveRec
               { id := s.nextLeaveId, employee_id := some eid, start_date := sd, end_date := ed,
                 reason := falsyOr ps.reason "Leave request via voice command",
                 leave_type := falsyOr ps.leave_type "vacation",
                 status := "pending", created_at := s.now }),
             message := some "Leave request submitted successfully" },
       { tick s with
           leaves := s.leaves ++
             [{ id := s.nextLeaveId, employee_id := some eid, start_date := sd, end_date := ed,
                reason := falsyOr ps.reason "Leave request via voice command",
                leave_type := falsyOr ps.leave_type "vacation",
                status := "pending", created_at := s.now }],
           nextLeaveId := s.nextLeaveId + 1, now := s.now + 1 }) := by
    simp only [handleLeaveRequestCommand, htr1, htr2, Bool.not_true, Bool.or_self,
      Bool.false_eq_true, if_false, Attendance.requestLeave, hsd, hed, Option.getD_some]
    rfl
  rw [hrun]
  refine ⟨rfl, rfl, rfl, rfl, ?_⟩
  exact perm_sort_filter_append
    (fun r => sqlEq r.employee_id (some eid) &&
      s.employees.any (fun e => sqlEq (some e.id) r.employee_id))
    s.leaves
    { id := s.nextLeaveId, employee_id := some eid, start_date := sd, end_date := ed,
      reason := falsyOr ps.reason "Leave request via voice command",
      leave_type := falsyOr ps.leave_type "vacation",
      status := "pending", created_at := s.now }
    (by simp [sqlEq, hemp])

/-- Witness for C6: employee 7 requests leave for 2024-01-01 to 2024-01-05
over `leaveStore`. -/
theorem leave_request_roundtrip_witness :
    ∃ row,
      (handleLeaveRequestCommand
          (some { start_date := some "2024-01-01", end_date := some "2024-01-05" })
          (some 7) leaveStore).1 =
        .ok { action := some "request_leave", data := some (.leaveRec row),
              message := some "Leave request submitted successfully" }
      ∧ row.start_date = "2024-01-01" ∧ row.end_date = "2024-01-05" ∧ row.status = "pending"
      ∧ List.Perm
          (Attendance.getLeaves (some 7)
            (handleLeaveRequestCommand
              (some { start_date := some "2024-01-01", end_date := some "2024-01-05" })
              (some 7) leaveStore).2)
          (row :: Attendance.getLeaves (some 7) leaveStore) :=
  leave_request_roundtrip 7
    { start_date := some "2024-01-01", end_date := some "2024-01-05" }
    "2024-01-01" "2024-01-05" leaveStore rfl rfl (by decide) (by decide) (by decide)

/-- Counterexample to C5 as stated: with no employee matching the offered
name "Zed", the attendance handler does not fail — it silently falls back to
the caller's own id and succeeds — and the employee-info handler's not-found
message is the generic "Employee not found", which does not preserve the
offered name. -/
theorem name_resolution_counterexample :
    (handleAttendanceCommand (some { employee_name := some "Zed" }) (some 7) nameStore).1 =
      .ok { action := some "view_attendance", data := some (.attList []),
            message := some "Retrieved 0 attendance records" }
    ∧ (handleEmployeeInfoCommand (some { employee_name := some "Zed" }) nameStore).1 =
        .error ("Failed to retrieve employee info: " ++ "Employee not found")
    ∧ containsCI ("Failed to retrieve employee info: " ++ "Employee not found") "Zed" = false :=
  ⟨rfl, rfl, by decide⟩

/-- Claim C5 (amended): when the name search returns one or more matches,
both name-resolving handlers deterministically use the first match under the
store's name ordering (the search output is sorted by name); when the search
returns zero matches, `view_attendance` silently falls back to the caller's
employee id and succeeds, and `get_employee_info` fails with the generic
message "Employee not found" that does not include the offered name. -/
theorem name_resolution_amended (nm : String) (ps : Params) (eid : Option Nat) (s : Store)
    (e : Employee) (rest : List Employee) :
    (ps.employee_name = some nm → nm ≠ "" → Employee.search nm s = e :: rest →
        (handleAttendanceCommand (some ps) eid s).1 =
          .ok { action := some "view_attendance",
                data := some (.attList (Attendance.getAllForEmployee (some e.id) 10 s)),
                message := some ("Retrieved " ++
                  toString (Attendance.getAllForEmployee (some e.id) 10 s).length ++
                  " attendance records") })
    ∧ (ps.employee_name = some nm → nm ≠ "" → ps.employee_id = none →
        Employee.search nm s = e :: rest →
        (handleEmployeeInfoCommand (some ps) s).1 =
          .ok { action := some "get_employee_info", data := some (.emp e),
                message := some ("Retrieved information for " ++ e.name) })
    ∧ (ps.employee_name = some nm → Employee.search nm s = [] →
        (handleAttendanceCommand (some ps) eid s).1 =
          .ok { action := some "view_attendance",
                data := some (.attList (Attendance.getAllForEmployee eid 10 s)),
                message := some ("Retrieved " ++
                  toString (Attendance.getAllForEmployee eid 10 s).length ++
                  " attendance records") })
    ∧ (ps.employee_name = some nm → ps.employee_id = none → Employee.search nm s = [] →
        (handleEmployeeInfoCommand (some ps) s).1 =
          .error ("Failed to retrieve employee info: " ++ "Employee not found"))
    ∧ List.Sorted nameLe (Employee.search nm s) := by
  refine ⟨?_, ?_, ?_, ?_, List.sorted_insertionSort nameLe _⟩
  · intro hname hnm hsearch
    have ht : truthy (some nm) = true := by simp [truthy, hnm]
    simp only [handleAttendanceCommand, ht, if_true, hname, Option.getD_some, search_tick,
      hsearch, getAllForEmployee_tick]
  · intro hname hnm hid hsearch
    have ht : truthy (some nm) = true := by simp [truthy, hnm]
    have htn : truthyNat ps.employee_id = false := by rw [hid]; rfl
    simp only [handleEmployeeInfoCommand, htn, Bool.false_eq_true, if_false, ht, if_true,
      hname, Option.getD_some, search_tick, hsearch, List.head?_cons]
  · intro hname hsearch
    by_cases hnm : nm = ""
    · have ht : truthy (some nm) = false := by rw [hnm]; rfl
      simp only [handleAttendanceCommand, hname, ht, Bool.false_eq_true, if_false,
        getAllForEmployee_tick]
    · have ht : truthy (some nm) = true := by simp [truthy, hnm]
      simp only [handleAttendanceCommand, ht, if_true, hname, Option.getD_some, search_tick,
        hsearch, getAllForEmployee_tick]
  · intro hname hid hsearch
    have htn : truthyNat ps.employee_id = false := by rw [hid]; rfl
    by_cases hnm : nm = ""
    · have ht : truthy (some nm) = false := by rw [hnm]; rfl
      simp only [handleEmployeeInfoCommand, htn, hname, ht, Bool.false_eq_true, if_false]
    · have ht : truthy (some nm) = true := by simp [truthy, hnm]
      simp only [handleEmployeeInfoCommand, htn, Bool.false_eq_true, if_false, ht, if_true,
        hname, Option.getD_some, search_tick, hsearch, List.head?_nil]

/-- Witness for C5 (amended): over `nameStore`, the query "ali" matches Alice
(first match used by both handlers) and the query "Zed" matches nobody
(attendance falls back to caller id 7, employee info fails generically). -/
theorem name_resolution_amended_witness :
    (handleAttendanceCommand (some { employee_name := some "ali" }) (some 7) nameStore).1 =
      .ok { action := some "view_attendance", data := some (.attList []),
            message := some "Retrieved 0 attendance records" }
    ∧ (handleEmployeeInfoCommand (some { employee_name := some "ali" }) nameStore).1 =
        .ok { action := some "get_employee_info", data := some (.emp aliceRow),
              message := some ("Retrieved information for " ++ aliceRow.name) }
    ∧ (handleAttendanceCommand (some { employee_name := some "Zed" }) (some 7) nameStore).1 =
        .ok { action := some "view_attendance", data := some (.attList []),
              message := some "Retrieved 0 attendance records" }
    ∧ (handleEmployeeInfoCommand (some { employee_name := some "Zed" }) nameStore).1 =
        .error ("Failed to retrieve employee info: " ++ "Employee not found") := by
  have h1 := name_resolution_amended "ali" { employee_name := some "ali" } (some 7) nameStore
    aliceRow []
  have h2 := name_resolution_amended "Zed" { employee_name := some "Zed" } (some 7) nameStore
    aliceRow []
  exact ⟨h1.1 rfl (by decide) (by decide), h1.2.1 rfl (by decide) rfl (by decide),
    h2.2.2.1 rfl (by decide), h2.2.2.2.1 rfl rfl (by decide)⟩

/-- Counterexample to C8 as stated: an interpreter timeout — a recoverable
failure per the claim — is answered by the text gateway with an HTTP 500
envelope, not a 200-class `success:false` envelope. -/
theorem gateway_5xx_counterexample :
    (textEndpoint { text := some "clock in" } (.error "timeout of 10000ms exceeded")
        baseStore).1.status = 500
    ∧ ¬(200 ≤ (textEndpoint { text := some "clock in" }
          (.error "timeout of 10000ms exceeded") baseStore).1.status
        ∧ (textEndpoint { text := some "clock in" }
            (.error "timeout of 10000ms exceeded") baseStore).1.status < 300)
    ∧ (textEndpoint { text := some "clock in" } (.error "timeout of 10000ms exceeded")
        baseStore).1.success = false :=
  ⟨rfl, by decide, rfl⟩

/-- Claim C8 (amended): with a non-empty text field, an interpreter failure
(unreachable, timed out, or a recognition error surfaced by the HTTP client)
reaches the route's catch-all and yields an HTTP 500 envelope with
`success:false` and the error message, while every executed command —
including domain rejections, which `executeCommand` converts to error
results — is returned inside an HTTP 200 envelope whose top-level `success`
is `true`, the failure being carried in `execution_result`. -/
theorem gateway_envelope_amended (b : TextBody) (e : String) (ai : AiResult) (s : Store)
    (htext : truthy b.text = true) :
    (textEndpoint b (.error e) s).1 = { status := 500, success := false, error := some e }
    ∧ (textEndpoint b (.ok ai) s).1 =
        { status := 200, success := true,
          execution_result := some (executeCommand ai b.employee_id s).1 } := by
  constructor <;>
    simp only [textEndpoint, htext, Bool.not_true, Bool.false_eq_true, if_false]

/-- Witness for C8 (amended): a payroll command from employee 7 against the
empty store, once with a timed-out interpreter call and once with a
successful one. -/
theorem gateway_envelope_amended_witness :
    (textEndpoint { text := some "show my payroll", employee_id := some 7 }
        (.error "timeout of 10000ms exceeded") baseStore).1 =
      { status := 500, success := false, error := some "timeout of 10000ms exceeded" }
    ∧ (textEndpoint { text := some "show my payroll", employee_id := some 7 }
        (.ok ⟨"view_payroll", none⟩) baseStore).1 =
      { status := 200, success := true,
        execution_result := some { action := some "view_payroll", data := some (.payList []),
                                   message := some "Retrieved 0 payroll records" } } := by
  have h := gateway_envelope_amended { text := some "show my payroll", employee_id := some 7 }
    "timeout of 10000ms exceeded" ⟨"view_payroll", none⟩ baseStore rfl
  exact h

end RoboHR
